import Mathlib

/-!
Verification of the client-side request/response and event-dispatch engine of
the `vscode-sockpuppet-python` repository, as a shallow embedding in Lean.

The embedding follows the Python source:
* `vscode_sockpuppet/events/core.py` — `EventEmitter` (register / dispose /
  remove / fire with the `on_first_add` / `on_no_listeners` hooks),
* `vscode_sockpuppet/client.py` — `VSCodeClient.__init__` (pipe-path
  resolution), `_send_request` (request channel over a newline-delimited
  stream), `subscribe` / `unsubscribe` (subscription management),
* `vscode_sockpuppet/webview.py` — `WebviewPanel` operations and the shared
  per-client message-dispatch registry.

Handlers are represented by opaque identifiers (`Nat`); the effect of calling
a handler is recorded in explicit traces, so that "handler h was invoked with
payload p" is a checkable fact about the model.  Wire payloads are kept
abstract (`α` with decidable equality) except for the string keys the code
actually inspects.
-/

set_option autoImplicit false

namespace Sockpuppet

/-! ### EventEmitter (`events/core.py`, also duplicated in `events.py`)

The emitter's mutable state is its handler list (`self._handlers`), a list of
handler identifiers in registration order.  The two lifecycle hooks are not
modelled as callbacks; instead each operation reports whether it invoked
`on_first_add` (for `event`) or `on_no_listeners` (for a dispose closure and
for `remove`).  Python's `list.remove` deletes the first occurrence and is
guarded by `handler in self._handlers`, which is `List.erase`. -/

namespace EventEmitter

/-- `EventEmitter.event(handler)`: append the handler; `on_first_add` fires
iff the list was empty before the append.  Returns (new handler list,
whether `on_first_add` was invoked). -/
def eventRegister (hs : List Nat) (h : Nat) : List Nat × Bool :=
  (hs ++ [h], hs.isEmpty)

/-- The `_dispose` closure returned by `EventEmitter.event` for handler `h`:
remove the first occurrence of `h` if present, then invoke `on_no_listeners`
iff the resulting list is empty.  Returns (new handler list, whether
`on_no_listeners` was invoked). -/
def disposeStep (hs : List Nat) (h : Nat) : List Nat × Bool :=
  let hs' := hs.erase h
  (hs', hs'.isEmpty)

/-- `EventEmitter.remove(handler)` — same body as the dispose closure. -/
def removeStep (hs : List Nat) (h : Nat) : List Nat × Bool :=
  disposeStep hs h

/-- `EventEmitter.has_listeners()`. -/
def has_listeners (hs : List Nat) : Bool :=
  !hs.isEmpty

/-- `EventEmitter.fire(data)`: snapshot the handler list, then call every
handler in order; a handler that raises is caught and the error reported
(printed), and iteration continues.  `beh h p` is what handler `h` does on
payload `p`: `.ok ()` or `.error msg`.  Returns (handlers invoked in order,
errors reported in order). -/
def fire {α : Type} (hs : List Nat) (beh : Nat → α → Except String Unit)
    (p : α) : List Nat × List (Nat × String) :=
  match hs with
  | [] => ([], [])
  | h :: t =>
    let rest := fire t beh p
    match beh h p with
    | .ok _ => (h :: rest.1, rest.2)
    | .error e => (h :: rest.1, (h, e) :: rest.2)

end EventEmitter

/-! ### Pipe-path resolution (`VSCodeClient.__init__`, client.py lines 34-45)

`pipe_path` argument, then the `VSCODE_SOCKPUPPET_PIPE` environment variable,
then a platform default.  `os.path.join(tempfile.gettempdir(), name)` is
modelled by `joinPath`. -/

def joinPath (dir name : String) : String :=
  if dir.endsWith "/" then dir ++ name else dir ++ "/" ++ name

def windowsDefaultPipe : String := "\\\\.\\pipe\\vscode-sockpuppet"

def unixDefaultPipe (tmpdir : String) : String :=
  joinPath tmpdir "vscode-sockpuppet.sock"

/-- `VSCodeClient.__init__` pipe-path resolution: explicit argument, else the
environment variable, else the platform default. -/
def resolvePipePath (arg : Option String) (env : Option String)
    (isWindows : Bool) (tmpdir : String) : String :=
  let p := match arg with
    | some a => some a
    | none => env
  match p with
  | some path => path
  | none => if isWindows then windowsDefaultPipe else unixDefaultPipe tmpdir

/-! ### Subscription management for one event name
(`VSCodeClient.subscribe` / `VSCodeClient.unsubscribe`, client.py lines
245-318, together with the dispose closures of `EventEmitter.event`)

Different event names are independent (`self._emitters` is keyed by name and
the hooks of each emitter mention only their own name), so the model fixes
one event name.  The client state for that name is:

* `curGen`: which emitter object currently sits in `self._emitters[event]`
  (`none` when the name is absent from the map).  Each emitter object created
  by `subscribe` gets a fresh generation number `nextGen`, because dispose
  closures keep references to the emitter *object* they were created on even
  after `unsubscribe(event, None)` drops it from the map.
* `store g`: the `_handlers` list of emitter object `g` (handler ids in
  registration order).

`Msg.subMsg` / `Msg.unsubMsg` record a `_send_request("events.subscribe")` /
`_send_request("events.unsubscribe")` issued by the hooks installed in
`VSCodeClient.subscribe` (`_on_first_add` / `_on_no_listeners`) or directly
by `VSCodeClient.unsubscribe(event, None)`. -/

namespace Subscription

structure SubState where
  nextGen : Nat
  curGen : Option Nat
  store : Nat → List Nat

def initState : SubState :=
  { nextGen := 0, curGen := none, store := fun _ => [] }

def SubState.setGen (s : SubState) (g : Nat) (hs : List Nat) : SubState :=
  { s with store := fun g' => if g' = g then hs else s.store g' }

/-- The current local listener count for the event name: the length of the
handler list of the emitter in `self._emitters`, `0` when absent. -/
def count (s : SubState) : Nat :=
  match s.curGen with
  | none => 0
  | some g => (s.store g).length

inductive Msg
  | subMsg
  | unsubMsg
deriving DecidableEq, Repr

/-- The operations a caller can perform on one event name:
`VSCodeClient.subscribe(event, h)`, invoking the dispose closure that
`EventEmitter.event` returned for handler `h` on emitter object `g`,
`VSCodeClient.unsubscribe(event, h)`, and `VSCodeClient.unsubscribe(event,
None)`. -/
inductive SubOp
  | subscribe (h : Nat)
  | dispose (g h : Nat)
  | removeHandler (h : Nat)
  | unsubscribeAll
deriving DecidableEq, Repr

/-- One operation, mirroring the Python control flow; returns the new state
and the control messages sent during the call. -/
def step (s : SubState) (op : SubOp) : SubState × List Msg :=
  match op with
  | .subscribe h =>
    -- `if event not in self._emitters:` create an emitter whose hooks send
    -- the control messages; then `self._emitters[event].event(handler)`.
    let sg : SubState × Nat :=
      match s.curGen with
      | some g => (s, g)
      | none =>
        let created : SubState :=
          { nextGen := s.nextGen + 1, curGen := some s.nextGen,
            store := s.store }
        (created.setGen s.nextGen [], s.nextGen)
    let r := EventEmitter.eventRegister (sg.1.store sg.2) h
    (sg.1.setGen sg.2 r.1, if r.2 then [Msg.subMsg] else [])
  | .dispose g h =>
    -- `_dispose` acts on the emitter object it closed over, which need not
    -- be the one currently in the map.
    let r := EventEmitter.disposeStep (s.store g) h
    (s.setGen g r.1, if r.2 then [Msg.unsubMsg] else [])
  | .removeHandler h =>
    -- `unsubscribe(event, handler)`: no-op when the name is absent;
    -- otherwise `emitter.remove(handler)` then drop the emitter from the
    -- map when it has no listeners.
    match s.curGen with
    | none => (s, [])
    | some g =>
      let r := EventEmitter.removeStep (s.store g) h
      let s' := s.setGen g r.1
      let s'' := if EventEmitter.has_listeners r.1 then s'
                 else { s' with curGen := none }
      (s'', if r.2 then [Msg.unsubMsg] else [])
  | .unsubscribeAll =>
    -- `unsubscribe(event, None)`: when the name is present, send
    -- `events.unsubscribe` directly and drop the emitter from the map.
    match s.curGen with
    | none => (s, [])
    | some _ => ({ s with curGen := none }, [Msg.unsubMsg])

/-- Run a whole sequence of operations, concatenating the sent messages. -/
def run : SubState → List SubOp → SubState × List Msg
  | s, [] => (s, [])
  | s, op :: ops =>
    let r := step s op
    let r' := run r.1 ops
    (r'.1, r.2 ++ r'.2)

/-- The trace of listener counts: the count before the first operation and
after each operation. -/
def countTrace : SubState → List SubOp → List Nat
  | s, [] => [count s]
  | s, op :: ops => count s :: countTrace (step s op).1 ops

/-- The message the claim allows for one listener-count transition:
`events.subscribe` exactly when the count moves from zero to positive,
`events.unsubscribe` exactly when it moves from positive to zero, nothing
otherwise. -/
def transMsgs (a b : Nat) : List Msg :=
  if a = 0 ∧ 0 < b then [Msg.subMsg]
  else if 0 < a ∧ b = 0 then [Msg.unsubMsg]
  else []

/-- The messages the claim allows along a whole count trace. -/
def transOfCounts : List Nat → List Msg
  | [] => []
  | [_] => []
  | a :: b :: rest => transMsgs a b ++ transOfCounts (b :: rest)

/-- Number of zero-to-positive transitions in a count trace. -/
def upTransitions : List Nat → Nat
  | [] => 0
  | [_] => 0
  | a :: b :: rest =>
    (if a = 0 ∧ 0 < b then 1 else 0) + upTransitions (b :: rest)

/-- Well-formedness of one operation against the current state: an
unsubscribe-side operation only runs while it can still remove a registered
handler of the *current* emitter (dispose closures are invoked while their
handler is registered on the emitter in the map, and `unsubscribe` is not
called when the listener count is already zero). -/
def wfOp (s : SubState) : SubOp → Prop
  | .subscribe _ => True
  | .dispose g h => s.curGen = some g ∧ h ∈ s.store g
  | .removeHandler _ => s.curGen = none ∨ 0 < count s
  | .unsubscribeAll => s.curGen = none ∨ 0 < count s

instance instDecidableWfOp (s : SubState) (op : SubOp) :
    Decidable (wfOp s op) :=
  match op with
  | .subscribe _ => isTrue trivial
  | .dispose g h =>
    inferInstanceAs (Decidable (s.curGen = some g ∧ h ∈ s.store g))
  | .removeHandler _ =>
    inferInstanceAs (Decidable (s.curGen = none ∨ 0 < count s))
  | .unsubscribeAll =>
    inferInstanceAs (Decidable (s.curGen = none ∨ 0 < count s))

/-- Well-formedness of a whole operation sequence, step by step. -/
def wfRun : SubState → List SubOp → Prop
  | _, [] => True
  | s, op :: ops => wfOp s op ∧ wfRun (step s op).1 ops

instance instDecidableWfRun :
    (s : SubState) → (ops : List SubOp) → Decidable (wfRun s ops)
  | _, [] => isTrue trivial
  | s, op :: ops =>
    haveI := instDecidableWfRun (step s op).1 ops
    inferInstanceAs (Decidable (wfOp s op ∧ wfRun (step s op).1 ops))

/-- Modelled from the spec: `VSCodeClient.add_event_listener` is called by
`events/core.py` (`Event.__call__`), `webview.py` and the tests, but its
definition is not among the provided sources.  Per spec §4.4 it looks up or
lazily creates the emitter for the event name — wiring `on_first_add` to
send `events.subscribe` and `on_no_listeners` to send `events.unsubscribe`,
both synchronously during the call — registers the handler via
`EventEmitter.event`, and returns that registration's dispose closure as the
unsubscribe closure.  This is the registration path of
`VSCodeClient.subscribe` (which is in the sources) plus returning the
closure, here represented by its (emitter generation, handler) token. -/
def add_event_listener (s : SubState) (h : Nat) :
    SubState × List Msg × (Nat × Nat) :=
  let g := match s.curGen with
    | some g => g
    | none => s.nextGen
  let r := step s (.subscribe h)
  (r.1, r.2, (g, h))

/-- Number of `events.subscribe` messages in a trace. -/
def countSub : List Msg → Nat
  | [] => 0
  | Msg.subMsg :: t => countSub t + 1
  | Msg.unsubMsg :: t => countSub t

end Subscription

/-! ### Request channel (`VSCodeClient._send_request`, client.py lines
122-187)

Transport text is `List Char`; the stream is a list of chunks as `recv`
returns them, an empty chunk meaning the peer closed the connection.  The
decoded JSON response is a string-keyed dictionary with abstract values
(`List (String × α)`, first binding wins, as the code only tests key
presence and reads single fields).  `decode` stands for `json.loads`. -/

namespace RequestChannel

def newline : Char := '\n'

structure ClientState where
  sockConnected : Bool       -- `self.sock is not None` (`is_connected`)
  requestId : Nat            -- `self._request_id`
  buffer : List Char         -- `self._buffer`
deriving DecidableEq, Repr

/-- Outcome of the receive loop inside `_send_request`. -/
inductive RecvOutcome
  | closed (acc : List Char)   -- empty chunk read: `ConnectionError`
  | stuck (acc : List Char)    -- model artifact: the finite modelled chunk
                               -- list ran out, where the code blocks in
                               -- `recv` forever
  | line (l : List Char) (rest : List Char)
deriving DecidableEq, Repr

/-- The receive loop: read a chunk, fail on an empty chunk, append to the
buffer; once the buffer contains a newline, the response is
`lines = buffer.split("\n"); lines[0]` — everything before the first
newline — and the retained buffer is `"\n".join(lines[1:])` — everything
after it. -/
def recvLoop : List Char → List (List Char) → RecvOutcome
  | buf, [] => .stuck buf
  | buf, c :: cs =>
    if c = [] then .closed buf
    else
      let buf' := buf ++ c
      if newline ∈ buf' then
        .line (buf'.takeWhile (· != newline))
              ((buf'.dropWhile (· != newline)).drop 1)
      else recvLoop buf' cs

inductive SendFailure (α : Type)
  | notConnected               -- `ConnectionError("Not connected ...")`
  | connectionClosed           -- `ConnectionError("Connection closed ...")`
  | stuck                      -- model artifact, see `RecvOutcome.stuck`
  | hostError (e : α)          -- `RuntimeError` carrying `response["error"]`

structure SendResult (α : Type) where
  outcome : Except (SendFailure α) (Option α)
  state : ClientState
  -- request frames written to the transport: (id, method, params)
  written : List (Nat × String × List (String × α))

/-- Interpretation of the decoded response: `if "error" in response: raise
RuntimeError(... response["error"])`, else `return response.get("result")`
(`none` models Python `None` for a missing key). -/
def responseOutcome {α : Type} (resp : List (String × α)) :
    Except (SendFailure α) (Option α) :=
  match resp.lookup "error" with
  | some e => .error (.hostError e)
  | none => .ok (resp.lookup "result")

/-- `VSCodeClient._send_request`: guard on connection, allocate the next
request id under the lock, write the `{id, method, params}` frame, then run
the receive loop and interpret the first complete line. -/
def sendRequest {α : Type} (st : ClientState) (method : String)
    (params : List (String × α)) (chunks : List (List Char))
    (decode : List Char → List (String × α)) : SendResult α :=
  if st.sockConnected then
    let rid := st.requestId + 1
    let written := [(rid, method, params)]
    match recvLoop st.buffer chunks with
    | .closed acc =>
      { outcome := .error .connectionClosed,
        state := { st with requestId := rid, buffer := acc },
        written := written }
    | .stuck acc =>
      { outcome := .error .stuck,
        state := { st with requestId := rid, buffer := acc },
        written := written }
    | .line l rest =>
      { outcome := responseOutcome (decode l),
        state := { st with requestId := rid, buffer := rest },
        written := written }
  else
    { outcome := .error .notConnected, state := st, written := [] }

end RequestChannel

/-! ### Webview panels (`webview.py`)

`WebviewPanel` state is reduced to the fields the claims touch.  Each
registered message handler is represented by the list of payloads it has
received so far (in arrival order), so "handler received exactly these
messages" is an equation about the model.  A `webview.onDidReceiveMessage`
event is seen by the global dispatcher through `event.get("id")` and
`event.get("message")` (`none` models an absent key / Python `None`).

`_global_message_registry[client]` is a Python dict `panel_id -> panel`, so
its ids are unique; updating the entry the dispatcher looked up is the
pointwise update of the matching panel. -/

namespace Webview

structure Panel (α : Type) where
  pid : String                            -- `self._id`
  disposed : Bool                         -- `self._disposed`
  title : String                          -- `self._title`
  -- `self._message_handlers`, each with its received payloads so far
  messageHandlers : List (List (Option α))
  disposeHandlers : List Nat              -- `self._dispose_handlers`
  disposeSubscriptionActive : Bool        -- `self._dispose_subscription_active`
deriving DecidableEq

structure WEvent (α : Type) where
  idField : Option String                 -- `event.get("id")`
  message : Option α                      -- `event.get("message")`
deriving DecidableEq

/-- Deliver one message to every message handler of a panel (`for handler in
panel._message_handlers[:]: handler(message)`). -/
def deliverPanel {α : Type} (e : WEvent α) (p : Panel α) : Panel α :=
  { p with messageHandlers :=
      p.messageHandlers.map (fun recd => recd ++ [e.message]) }

/-- Whether the global dispatcher forwards event `e` to the panel with id
`pid`: the event must carry a non-falsy id equal to `pid`. -/
def deliverable {α : Type} (pid : String) (e : WEvent α) : Bool :=
  match e.idField with
  | some i => (i != "") && (i == pid)
  | none => false

/-- `_global_handler` in `_setup_message_subscription`: read
`event.get("id")`; return when it is missing or falsy (`if not panel_id`);
look the panel up in the registry (return when absent); deliver
`event.get("message")` to that panel’s handlers. -/
def dispatch {α : Type} (reg : List (Panel α)) (e : WEvent α) :
    List (Panel α) :=
  match e.idField with
  | none => reg
  | some pid =>
    if pid = "" then reg
    else reg.map (fun p => if p.pid = pid then deliverPanel e p else p)

/-- A sequence of `webview.onDidReceiveMessage` events dispatched through
the shared global handler, in arrival order. -/
def dispatchAll {α : Type} (reg : List (Panel α)) (evs : List (WEvent α)) :
    List (Panel α) :=
  evs.foldl dispatch reg

/-- What one event does to one panel, as a total function. -/
def applyEvent {α : Type} (e : WEvent α) (p : Panel α) : Panel α :=
  if deliverable p.pid e then deliverPanel e p else p

/-- The declarative reading of the claim: after a batch of events, each
handler of each panel has received in order exactly the `message` payloads of
the events whose embedded id equals that panel's id. -/
def collect {α : Type} (evs : List (WEvent α)) (p : Panel α) : Panel α :=
  { p with
      messageHandlers :=
        p.messageHandlers.map
          (fun recd =>
            recd ++ (evs.filter (deliverable p.pid)).map (·.message)) }

/-- The unsubscribe closures `WebviewPanel.on_did_dispose` can return:
`lambda: None` for an already-disposed panel, or the real closure removing
the given handler. -/
inductive Unsub
  | noop
  | removeDispose (h : Nat)
deriving DecidableEq, Repr

/-- `WebviewPanel.on_did_dispose(handler)`: when the panel is already
disposed, call the handler immediately and return `lambda: None`; otherwise
append the handler, mark the dispose subscription active (standing in for
`_setup_dispose_subscription`), and return the removing closure.  Returns
(new panel state, handlers invoked during this call, returned closure). -/
def on_did_dispose {α : Type} (p : Panel α) (h : Nat) :
    Panel α × List Nat × Unsub :=
  if p.disposed then (p, [h], Unsub.noop)
  else
    ({ p with disposeHandlers := p.disposeHandlers ++ [h]
              disposeSubscriptionActive := true }, [], Unsub.removeDispose h)

/-- Invoke an unsubscribe closure returned by `on_did_dispose`. -/
def runUnsub {α : Type} (p : Panel α) : Unsub → Panel α
  | Unsub.noop => p
  | Unsub.removeDispose h =>
    { p with disposeHandlers := p.disposeHandlers.erase h }

/-- Requests a panel operation may send to the host. -/
inductive WReq (α : Type)
  | updateHtml (id html : String)             -- `window.updateWebviewPanel`
  | updateTitle (id title : String)           -- `window.updateWebviewPanel`
  | updateIcon (id iconPath : String)         -- `window.updateWebviewPanel`
  | postMessage (id : String) (message : α)   -- `window.postMessageToWebview`
  | asUri (id uri : String)                   -- `window.asWebviewUri`
deriving DecidableEq

/-- Result of a panel operation: the panel state afterwards, the requests
sent to the host, and the returned value or raised error. -/
structure OpResult (α ρ : Type) where
  panel : Panel α
  sent : List (WReq α)
  out : Except String ρ

def update_html {α : Type} (p : Panel α) (html : String) : OpResult α Unit :=
  if p.disposed then
    { panel := p, sent := [], out := .error "Cannot update disposed webview panel" }
  else
    { panel := p, sent := [WReq.updateHtml p.pid html], out := .ok () }

def update_title {α : Type} (p : Panel α) (title : String) : OpResult α Unit :=
  if p.disposed then
    { panel := p, sent := [], out := .error "Cannot update disposed webview panel" }
  else
    { panel := { p with title := title }
      sent := [WReq.updateTitle p.pid title]
      out := .ok () }

def update_icon {α : Type} (p : Panel α) (iconPath : String) : OpResult α Unit :=
  if p.disposed then
    { panel := p, sent := [], out := .error "Cannot update disposed webview panel" }
  else
    { panel := p, sent := [WReq.updateIcon p.pid iconPath], out := .ok () }

def post_message {α : Type} (p : Panel α) (message : α) : OpResult α Unit :=
  if p.disposed then
    { panel := p, sent := []
      out := .error "Cannot post message to disposed webview panel" }
  else
    { panel := p, sent := [WReq.postMessage p.pid message], out := .ok () }

/-- `as_webview_uri`: after the disposed check, prefix `file://` (replacing
backslashes) when missing, send the request, and return the host's
`webviewUri` (modelled by the `hostUri` parameter). -/
def as_webview_uri {α : Type} (p : Panel α) (localUri hostUri : String) :
    OpResult α String :=
  if p.disposed then
    { panel := p, sent := []
      out := .error "Cannot convert URI for disposed webview panel" }
  else
    let uri := if localUri.startsWith "file://" then localUri
               else "file://" ++ (localUri.replace "\\" "/")
    { panel := p, sent := [WReq.asUri p.pid uri], out := .ok hostUri }

/-- A concrete already-disposed panel, used to witness the disposed-path
claims. -/
def disposedSample : Panel Nat :=
  { pid := "w"
    disposed := true
    title := "t"
    messageHandlers := []
    disposeHandlers := [7]
    disposeSubscriptionActive := false }

end Webview

end Sockpuppet

/-! ## Theorems -/

open Sockpuppet

/-- **C9.** The resolved pipe path follows the order explicit argument >
environment variable > platform default: a non-`None` `pipe_path` argument
wins; otherwise a set `VSCODE_SOCKPUPPET_PIPE` environment variable wins;
otherwise the platform-specific default path is used. -/
theorem C9_pipe_path_resolution_order :
    (∀ (a : String) (env : Option String) (w : Bool) (t : String),
        resolvePipePath (some a) env w t = a)
    ∧ (∀ (e : String) (w : Bool) (t : String),
        resolvePipePath none (some e) w t = e)
    ∧ (∀ (w : Bool) (t : String),
        resolvePipePath none none w t =
          if w then windowsDefaultPipe else unixDefaultPipe t) := by
  refine ⟨fun a env w t => rfl, fun e w t => rfl, fun w t => rfl⟩

/-- **C6.** `EventEmitter.fire` invokes every handler from the snapshot, in
registration order, regardless of which handlers raise; a raising handler is
reported (handler id and message, in order) and does not stop later handlers;
firing with zero handlers is a no-op. -/
theorem C6_fire_runs_all_handlers :
    ∀ {α : Type} (hs : List Nat) (beh : Nat → α → Except String Unit) (p : α),
      (EventEmitter.fire hs beh p).1 = hs
      ∧ (EventEmitter.fire hs beh p).2 =
          hs.filterMap (fun h =>
            match beh h p with
            | .ok _ => none
            | .error e => some (h, e))
      ∧ EventEmitter.fire ([] : List Nat) beh p = ([], []) := by
  intro α hs beh p
  refine ⟨?_, ?_, rfl⟩
  · induction hs with
    | nil => rfl
    | cons h t ih =>
      simp only [EventEmitter.fire]
      cases beh h p <;> simp [ih]
  · induction hs with
    | nil => rfl
    | cons h t ih =>
      simp only [EventEmitter.fire, List.filterMap_cons]
      cases beh h p <;> simp [ih]

/-- **C4 counterexample.** The claim "the second and later invocations of the
unsubscribe closure ... do not invoke the `on_no_listeners` hook" is false:
register handler `0` as the only handler (`[0]`), invoke its dispose closure
once (the list becomes empty and the hook fires, as expected), then invoke it
a second time — `_dispose` finds the handler list empty and invokes
`on_no_listeners` again (the second component is `true`), triggering a second
`events.unsubscribe`. -/
theorem C4_counterexample_double_dispose_refires_hook :
    EventEmitter.disposeStep (EventEmitter.disposeStep [0] 0).1 0 = ([], true)
    ∧ (EventEmitter.disposeStep [0] 0).2 = true := by
  constructor <;> rfl

/-- **C4 (amended).** A second (or later) invocation of the unsubscribe
closure never raises and removes no handler; it invokes the
`on_no_listeners` hook exactly when the handler list is empty at the time of
the call.  In particular, when other handlers are still registered the
repeated invocation is a complete no-op, but after the last handler was
removed a repeated invocation re-invokes the hook (re-sending
`events.unsubscribe`). -/
theorem C4_repeated_dispose_removes_nothing (hs : List Nat) (h : Nat)
    (hnotin : h ∉ hs) :
    EventEmitter.disposeStep hs h = (hs, hs.isEmpty) := by
  simp [EventEmitter.disposeStep, List.erase_of_not_mem hnotin]

/-- Witness for `C4_repeated_dispose_removes_nothing`: handler `0` is not in
the remaining list `[1]`, and a repeated dispose there is a full no-op. -/
theorem C4_repeated_dispose_removes_nothing_witness :
    EventEmitter.disposeStep [1] 0 = ([1], false) :=
  C4_repeated_dispose_removes_nothing [1] 0 (by decide)

namespace Sockpuppet.Subscription

theorem setGen_store (s : SubState) (g : Nat) (hs : List Nat) (g' : Nat) :
    (s.setGen g hs).store g' = if g' = g then hs else s.store g' := rfl

theorem setGen_curGen (s : SubState) (g : Nat) (hs : List Nat) :
    (s.setGen g hs).curGen = s.curGen := rfl

theorem countSub_append (l₁ l₂ : List Msg) :
    countSub (l₁ ++ l₂) = countSub l₁ + countSub l₂ := by
  induction l₁ with
  | nil => simp [countSub]
  | cons m t ih =>
    cases m with
    | subMsg =>
      have h1 : countSub ((Msg.subMsg :: t) ++ l₂) = countSub (t ++ l₂) + 1 :=
        rfl
      have h2 : countSub (Msg.subMsg :: t) = countSub t + 1 := rfl
      rw [h1, h2, ih]
      omega
    | unsubMsg =>
      have h1 : countSub ((Msg.unsubMsg :: t) ++ l₂) = countSub (t ++ l₂) :=
        rfl
      have h2 : countSub (Msg.unsubMsg :: t) = countSub t := rfl
      rw [h1, h2, ih]

theorem countSub_ite_unsub (c : Prop) [Decidable c] :
    countSub (if c then [Msg.unsubMsg] else []) = 0 := by
  split <;> rfl

theorem countTrace_head (s : SubState) (ops : List SubOp) :
    countTrace s ops = count s :: (countTrace s ops).tail := by
  cases ops <;> rfl

/-- Under well-formed use, the messages sent by one operation are exactly
what the listener-count transition allows. -/
theorem step_msgs (s : SubState) (op : SubOp) (hwf : wfOp s op) :
    (step s op).2 = transMsgs (count s) (count (step s op).1) := by
  cases op with
  | subscribe h =>
    cases hcur : s.curGen with
    | none =>
      simp [step, hcur, count, EventEmitter.eventRegister, transMsgs,
        SubState.setGen]
    | some g =>
      cases hsg : s.store g with
      | nil =>
        simp [step, hcur, hsg, count, EventEmitter.eventRegister, transMsgs,
          SubState.setGen]
      | cons a t =>
        simp [step, hcur, hsg, count, EventEmitter.eventRegister, transMsgs,
          SubState.setGen]
  | dispose g h =>
    obtain ⟨hg, hmem⟩ := hwf
    have hlen : ((s.store g).erase h).length = (s.store g).length - 1 :=
      List.length_erase_of_mem hmem
    have hpos : 0 < (s.store g).length := List.length_pos_of_mem hmem
    cases hE : (s.store g).erase h with
    | nil =>
      have hone : (s.store g).length = 1 := by
        rw [hE] at hlen
        simp only [List.length_nil] at hlen
        omega
      simp [step, hg, hE, count, EventEmitter.disposeStep, transMsgs,
        SubState.setGen, hone]
    | cons a t =>
      have hlen2 : (s.store g).length = t.length + 2 := by
        rw [hE] at hlen
        simp only [List.length_cons] at hlen
        omega
      simp [step, hg, hE, count, EventEmitter.disposeStep, transMsgs,
        SubState.setGen, hlen2]
  | removeHandler h =>
    cases hcur : s.curGen with
    | none => simp [step, hcur, count, transMsgs]
    | some g =>
      have hpos : 0 < (s.store g).length := by
        rcases hwf with h1 | h2
        · rw [hcur] at h1; cases h1
        · rwa [count, hcur] at h2
      cases hE : (s.store g).erase h with
      | nil =>
        simp [step, hcur, hE, count, EventEmitter.removeStep,
          EventEmitter.disposeStep, EventEmitter.has_listeners, transMsgs,
          SubState.setGen, hpos]
      | cons a t =>
        have hne : s.store g ≠ [] := List.ne_nil_of_length_pos hpos
        simp [step, hcur, hE, count, EventEmitter.removeStep,
          EventEmitter.disposeStep, EventEmitter.has_listeners, transMsgs,
          SubState.setGen, hpos, hne]
  | unsubscribeAll =>
    cases hcur : s.curGen with
    | none => simp [step, hcur, count, transMsgs]
    | some g =>
      have hpos : 0 < (s.store g).length := by
        rcases hwf with h1 | h2
        · rw [hcur] at h1; cases h1
        · rwa [count, hcur] at h2
      simp [step, hcur, count, transMsgs, hpos]

/-- The non-`subscribe` operations never send `events.subscribe`. -/
theorem step_countSub_zero_of_not_subscribe (s : SubState) (op : SubOp)
    (hop : ∀ h : Nat, op ≠ SubOp.subscribe h) :
    countSub (step s op).2 = 0 := by
  cases op with
  | subscribe h => exact absurd rfl (hop h)
  | dispose g h =>
    simp only [step]
    exact countSub_ite_unsub _
  | removeHandler h =>
    cases hcur : s.curGen with
    | none => simp [step, hcur, countSub]
    | some g =>
      simp only [step, hcur]
      exact countSub_ite_unsub _
  | unsubscribeAll =>
    cases hcur : s.curGen with
    | none => simp [step, hcur, countSub]
    | some g => simp [step, hcur, countSub]

/-- When the listener count is zero, no operation other than `subscribe` can
make it positive. -/
theorem step_count_stays_zero (s : SubState) (op : SubOp)
    (hop : ∀ h : Nat, op ≠ SubOp.subscribe h) (hz : count s = 0) :
    count (step s op).1 = 0 := by
  cases op with
  | subscribe h => exact absurd rfl (hop h)
  | dispose g h =>
    cases hcur : s.curGen with
    | none => simp [step, count, SubState.setGen, hcur]
    | some g' =>
      have hnil : s.store g' = [] := by
        simp only [count, hcur] at hz
        exact List.length_eq_zero.mp hz
      by_cases hgg : g' = g
      · subst hgg
        simp [step, count, SubState.setGen, hcur, hnil,
          EventEmitter.disposeStep]
      · simp [step, count, SubState.setGen, hcur, hgg, hnil,
          EventEmitter.disposeStep]
  | removeHandler h =>
    cases hcur : s.curGen with
    | none => simp [step, count, hcur]
    | some g =>
      have hnil : s.store g = [] := by
        simp only [count, hcur] at hz
        exact List.length_eq_zero.mp hz
      simp [step, count, SubState.setGen, hcur, hnil,
        EventEmitter.removeStep, EventEmitter.disposeStep,
        EventEmitter.has_listeners]
  | unsubscribeAll =>
    cases hcur : s.curGen with
    | none => simp [step, count, hcur]
    | some g => simp [step, count, hcur]

/-- Unconditionally (well-formed use or not), `events.subscribe` is sent
exactly when the listener count moves from zero to positive. -/
theorem step_countSub (s : SubState) (op : SubOp) :
    countSub (step s op).2 =
      (if count s = 0 ∧ 0 < count (step s op).1 then 1 else 0) := by
  cases op with
  | subscribe h =>
    cases hcur : s.curGen with
    | none =>
      simp [step, hcur, count, EventEmitter.eventRegister, countSub,
        SubState.setGen]
    | some g =>
      cases hsg : s.store g with
      | nil =>
        simp [step, hcur, hsg, count, EventEmitter.eventRegister, countSub,
          SubState.setGen]
      | cons a t =>
        simp [step, hcur, hsg, count, EventEmitter.eventRegister, countSub,
          SubState.setGen]
  | dispose g h =>
    rw [step_countSub_zero_of_not_subscribe s _ (by intro x; simp)]
    rcases Nat.eq_zero_or_pos (count s) with hz | hp
    · rw [step_count_stays_zero s _ (by intro x; simp) hz]
      simp
    · have : count s ≠ 0 := Nat.pos_iff_ne_zero.mp hp
      simp [this]
  | removeHandler h =>
    rw [step_countSub_zero_of_not_subscribe s _ (by intro x; simp)]
    rcases Nat.eq_zero_or_pos (count s) with hz | hp
    · rw [step_count_stays_zero s _ (by intro x; simp) hz]
      simp
    · have : count s ≠ 0 := Nat.pos_iff_ne_zero.mp hp
      simp [this]
  | unsubscribeAll =>
    rw [step_countSub_zero_of_not_subscribe s _ (by intro x; simp)]
    rcases Nat.eq_zero_or_pos (count s) with hz | hp
    · rw [step_count_stays_zero s _ (by intro x; simp) hz]
      simp
    · have : count s ≠ 0 := Nat.pos_iff_ne_zero.mp hp
      simp [this]

theorem run_msgs_eq_transOfCounts (s : SubState) (ops : List SubOp)
    (hwf : wfRun s ops) :
    (run s ops).2 = transOfCounts (countTrace s ops) := by
  induction ops generalizing s with
  | nil => rfl
  | cons op ops ih =>
    obtain ⟨h1, h2⟩ := hwf
    have hhead := countTrace_head (step s op).1 ops
    calc (run s (op :: ops)).2
        = (step s op).2 ++ (run (step s op).1 ops).2 := rfl
      _ = transMsgs (count s) (count (step s op).1)
            ++ transOfCounts (countTrace (step s op).1 ops) := by
            rw [step_msgs s op h1, ih _ h2]
      _ = transOfCounts (count s :: countTrace (step s op).1 ops) := by
            rw [hhead]
            rfl
      _ = transOfCounts (countTrace s (op :: ops)) := rfl

theorem run_countSub_eq_upTransitions (s : SubState) (ops : List SubOp) :
    countSub (run s ops).2 = upTransitions (countTrace s ops) := by
  induction ops generalizing s with
  | nil => rfl
  | cons op ops ih =>
    have hhead := countTrace_head (step s op).1 ops
    calc countSub (run s (op :: ops)).2
        = countSub ((step s op).2 ++ (run (step s op).1 ops).2) := rfl
      _ = countSub (step s op).2 + countSub (run (step s op).1 ops).2 :=
            countSub_append _ _
      _ = (if count s = 0 ∧ 0 < count (step s op).1 then 1 else 0)
            + upTransitions (countTrace (step s op).1 ops) := by
            rw [step_countSub, ih]
      _ = upTransitions (count s :: countTrace (step s op).1 ops) := by
            rw [hhead]
            rfl
      _ = upTransitions (countTrace s (op :: ops)) := rfl

end Sockpuppet.Subscription

open Sockpuppet.Subscription in
/-- **C1 counterexample.** The claim is false as stated: in the sequence
`subscribe h; dispose(); dispose()` the second invocation of the unsubscribe
closure finds the emitter's handler list already empty and `on_no_listeners`
fires again, so the client sends `events.subscribe, events.unsubscribe,
events.unsubscribe` although the listener count trace is `0,1,0,0` — the
count transitions from 1 to 0 only once, yet two unsubscribe messages are
sent (and the second is sent while no transition happens at all).  The same
happens for `subscribe h; unsubscribe(event, None); dispose()`: the dispose
closure still references the dropped emitter object and sends a second
`events.unsubscribe`. -/
theorem C1_counterexample_extra_unsubscribe :
    (run initState [SubOp.subscribe 0, SubOp.dispose 0 0,
        SubOp.dispose 0 0]).2
      = [Msg.subMsg, Msg.unsubMsg, Msg.unsubMsg]
    ∧ countTrace initState [SubOp.subscribe 0, SubOp.dispose 0 0,
        SubOp.dispose 0 0]
      = [0, 1, 0, 0]
    ∧ (run initState [SubOp.subscribe 0, SubOp.unsubscribeAll,
        SubOp.dispose 0 0]).2
      = [Msg.subMsg, Msg.unsubMsg, Msg.unsubMsg]
    ∧ countTrace initState [SubOp.subscribe 0, SubOp.unsubscribeAll,
        SubOp.dispose 0 0]
      = [0, 1, 0, 0] := by
  refine ⟨by decide, by decide, by decide, by decide⟩

open Sockpuppet.Subscription in
/-- **C1 (amended).** For every sequence of subscribe/unsubscribe operations
on a single event name in which each unsubscribe-side operation still has
something to remove when it runs — every dispose closure is invoked while
its handler is registered on the emitter currently in the map, and
`unsubscribe` is not called while the listener count is already zero — the
client sends exactly one `events.subscribe` each time the listener count
moves from zero to positive, exactly one `events.unsubscribe` each time it
moves from positive to zero, and nothing otherwise (first conjunct).
Moreover the subscribe side needs no such restriction: for arbitrary
sequences, the number of `events.subscribe` messages equals the number of
zero-to-positive transitions of the listener count (second conjunct). -/
theorem C1_subscription_messages_follow_count_transitions :
    (∀ (s : SubState) (ops : List SubOp), wfRun s ops →
        (run s ops).2 = transOfCounts (countTrace s ops))
    ∧ (∀ (s : SubState) (ops : List SubOp),
        countSub (run s ops).2 = upTransitions (countTrace s ops)) :=
  ⟨run_msgs_eq_transOfCounts, run_countSub_eq_upTransitions⟩

open Sockpuppet.Subscription in
/-- Witness for `C1_subscription_messages_follow_count_transitions` at the
concrete sequence `subscribe 0; subscribe 1; dispose(gen 0, handler 0);
unsubscribe(event, 1); subscribe 2; unsubscribe(event, None)`. -/
theorem C1_subscription_messages_follow_count_transitions_witness :
    wfRun initState [SubOp.subscribe 0, SubOp.subscribe 1, SubOp.dispose 0 0,
        SubOp.removeHandler 1, SubOp.subscribe 2, SubOp.unsubscribeAll]
    ∧ (run initState [SubOp.subscribe 0, SubOp.subscribe 1,
        SubOp.dispose 0 0, SubOp.removeHandler 1, SubOp.subscribe 2,
        SubOp.unsubscribeAll]).2
      = transOfCounts (countTrace initState [SubOp.subscribe 0,
          SubOp.subscribe 1, SubOp.dispose 0 0, SubOp.removeHandler 1,
          SubOp.subscribe 2, SubOp.unsubscribeAll])
    ∧ (run initState [SubOp.subscribe 0, SubOp.subscribe 1,
        SubOp.dispose 0 0, SubOp.removeHandler 1, SubOp.subscribe 2,
        SubOp.unsubscribeAll]).2
      = [Msg.subMsg, Msg.unsubMsg, Msg.subMsg, Msg.unsubMsg] :=
  ⟨by decide,
   C1_subscription_messages_follow_count_transitions.1 initState _ (by decide),
   by decide⟩

open Sockpuppet.Subscription in
/-- **C3.** (`add_event_listener` is modelled from the spec, see
`Sockpuppet.Subscription.add_event_listener`.)  When the event name has no
listener yet, `add_event_listener(event, handler)` sends exactly one
`events.subscribe` control request during the call (so it has been issued
synchronously by the time the call returns), leaves the name with one
listener, and returns an unsubscribe closure: invoking the returned closure
removes that registration again, sending `events.unsubscribe`. -/
theorem C3_add_event_listener_first_listener_subscribes
    (s : SubState) (h : Nat) (hzero : count s = 0) :
    (add_event_listener s h).2.1 = [Msg.subMsg]
    ∧ count (add_event_listener s h).1 = 1
    ∧ (step (add_event_listener s h).1
        (SubOp.dispose (add_event_listener s h).2.2.1
          (add_event_listener s h).2.2.2)).2 = [Msg.unsubMsg]
    ∧ count (step (add_event_listener s h).1
        (SubOp.dispose (add_event_listener s h).2.2.1
          (add_event_listener s h).2.2.2)).1 = 0 := by
  cases hcur : s.curGen with
  | none =>
    refine ⟨?_, ?_, ?_, ?_⟩ <;>
      simp [add_event_listener, step, hcur, count, SubState.setGen,
        EventEmitter.eventRegister, EventEmitter.disposeStep]
  | some g =>
    have hnil : s.store g = [] := by
      simp only [count, hcur] at hzero
      exact List.length_eq_zero.mp hzero
    refine ⟨?_, ?_, ?_, ?_⟩ <;>
      simp [add_event_listener, step, hcur, hnil, count, SubState.setGen,
        EventEmitter.eventRegister, EventEmitter.disposeStep]

open Sockpuppet.Subscription in
/-- Witness for `C3_add_event_listener_first_listener_subscribes` at the
initial state (no listeners) and handler `7`. -/
theorem C3_add_event_listener_first_listener_subscribes_witness :
    count initState = 0
    ∧ (add_event_listener initState 7).2.1 = [Msg.subMsg]
    ∧ count (add_event_listener initState 7).1 = 1
    ∧ (step (add_event_listener initState 7).1
        (SubOp.dispose (add_event_listener initState 7).2.2.1
          (add_event_listener initState 7).2.2.2)).2 = [Msg.unsubMsg]
    ∧ count (step (add_event_listener initState 7).1
        (SubOp.dispose (add_event_listener initState 7).2.2.1
          (add_event_listener initState 7).2.2.2)).1 = 0 :=
  ⟨by decide,
   (C3_add_event_listener_first_listener_subscribes initState 7
      (by decide)).1,
   (C3_add_event_listener_first_listener_subscribes initState 7
      (by decide)).2.1,
   (C3_add_event_listener_first_listener_subscribes initState 7
      (by decide)).2.2.1,
   (C3_add_event_listener_first_listener_subscribes initState 7
      (by decide)).2.2.2⟩

theorem takeWhile_append_left {α : Type} (p : α → Bool) :
    ∀ (l l₂ : List α), (∃ a ∈ l, p a = false) →
      (l ++ l₂).takeWhile p = l.takeWhile p := by
  intro l
  induction l with
  | nil =>
    intro l₂ h
    obtain ⟨a, ha, _⟩ := h
    cases ha
  | cons x xs ih =>
    intro l₂ h
    cases hx : p x with
    | false => simp [List.takeWhile_cons, hx]
    | true =>
      have hex : ∃ a ∈ xs, p a = false := by
        obtain ⟨a, ha, hpa⟩ := h
        rcases List.mem_cons.mp ha with rfl | hmem
        · rw [hx] at hpa; cases hpa
        · exact ⟨a, hmem, hpa⟩
      simp [List.takeWhile_cons, hx, ih _ hex]

/-- The receive loop really yields the first newline-delimited line of the
stream: with a nonempty chunk list, no chunk signalling closure, and a
newline somewhere in buffered-plus-arriving text, `recvLoop` returns
`.line` with everything before the first newline. -/
theorem recvLoop_line_of_newline :
    ∀ (chunks : List (List Char)) (buf : List Char), chunks ≠ [] →
      (∀ c ∈ chunks, c ≠ ([] : List Char)) →
      RequestChannel.newline ∈ buf ++ chunks.flatten →
      ∃ rest, RequestChannel.recvLoop buf chunks =
        RequestChannel.RecvOutcome.line
          ((buf ++ chunks.flatten).takeWhile (· != RequestChannel.newline))
          rest := by
  intro chunks
  induction chunks with
  | nil =>
    intro buf hne _ _
    exact absurd rfl hne
  | cons c cs ih =>
    intro buf _ hnonempty hmem
    have hc : c ≠ [] := hnonempty c (List.mem_cons_self c cs)
    by_cases hnl : RequestChannel.newline ∈ buf ++ c
    · refine ⟨((buf ++ c).dropWhile (· != RequestChannel.newline)).drop 1, ?_⟩
      have htw : ((buf ++ c) ++ cs.flatten).takeWhile
            (· != RequestChannel.newline)
          = (buf ++ c).takeWhile (· != RequestChannel.newline) := by
        apply takeWhile_append_left
        exact ⟨RequestChannel.newline, hnl, by simp⟩
      simp only [RequestChannel.recvLoop, if_neg hc, if_pos hnl]
      rw [List.flatten_cons, ← List.append_assoc, htw]
    · have hmem' : RequestChannel.newline ∈ (buf ++ c) ++ cs.flatten := by
        rw [List.flatten_cons, ← List.append_assoc] at hmem
        exact hmem
      have hcs : cs ≠ [] := by
        intro hnil
        subst hnil
        simp only [List.flatten_nil, List.append_nil] at hmem'
        exact hnl hmem'
      obtain ⟨rest, hrest⟩ := ih (buf ++ c) hcs
        (fun x hx => hnonempty x (List.mem_cons_of_mem _ hx)) hmem'
      refine ⟨rest, ?_⟩
      simp only [RequestChannel.recvLoop, if_neg hc, if_neg hnl]
      rw [hrest]
      rw [List.flatten_cons, ← List.append_assoc]

/-- **C2.** On a connected client, `_send_request` decodes the first
complete newline-delimited message from the stream (conjunct 5 shows the
receive loop really isolates everything before the first newline); if the
decoded message has an `error` key the call fails with an error carrying
the host's value (conjunct 2), otherwise it returns the message's `result`
field (conjunct 3); in particular a response `[("id", N), ("result", X)]`
yields exactly `X` (conjunct 4).  Conjunct 1 ties this interpretation to
the full `sendRequest` path. -/
theorem C2_send_request_response_handling :
    (∀ {α : Type} (st : RequestChannel.ClientState) (method : String)
        (params : List (String × α)) (chunks : List (List Char))
        (decode : List Char → List (String × α)) (l rest : List Char),
        st.sockConnected = true →
        RequestChannel.recvLoop st.buffer chunks =
          RequestChannel.RecvOutcome.line l rest →
        RequestChannel.sendRequest st method params chunks decode =
          { outcome := RequestChannel.responseOutcome (decode l)
            state := { st with requestId := st.requestId + 1
                               buffer := rest }
            written := [(st.requestId + 1, method, params)] })
    ∧ (∀ {α : Type} (resp : List (String × α)) (e : α),
        resp.lookup "error" = some e →
        RequestChannel.responseOutcome resp =
          Except.error (RequestChannel.SendFailure.hostError e))
    ∧ (∀ {α : Type} (resp : List (String × α)),
        resp.lookup "error" = none →
        RequestChannel.responseOutcome resp = Except.ok (resp.lookup "result"))
    ∧ (∀ {α : Type} (idv x : α),
        RequestChannel.responseOutcome [("id", idv), ("result", x)] =
          Except.ok (some x))
    ∧ (∀ (chunks : List (List Char)) (buf : List Char), chunks ≠ [] →
        (∀ c ∈ chunks, c ≠ ([] : List Char)) →
        RequestChannel.newline ∈ buf ++ chunks.flatten →
        ∃ rest, RequestChannel.recvLoop buf chunks =
          RequestChannel.RecvOutcome.line
            ((buf ++ chunks.flatten).takeWhile (· != RequestChannel.newline))
            rest) := by
  refine ⟨?_, ?_, ?_, ?_, recvLoop_line_of_newline⟩
  · intro α st method params chunks decode l rest hconn hline
    simp [RequestChannel.sendRequest, hconn, hline]
  · intro α resp e h
    simp [RequestChannel.responseOutcome, h]
  · intro α resp h
    simp [RequestChannel.responseOutcome, h]
  · intro α idv x
    rfl

/-- Witness for `C2_send_request_response_handling`: a connected client with
empty buffer receives chunks `"ab"`, `"\nc"`; the first complete line is
`"ab"`, decoded (concretely) to `[("id", 1), ("result", 42)]`, and the call
returns `42`, advances the request id, and retains `"c"` in the buffer. -/
theorem C2_send_request_response_handling_witness :
    RequestChannel.recvLoop ([] : List Char) [['a', 'b'], ['\n', 'c']] =
      RequestChannel.RecvOutcome.line ['a', 'b'] ['c']
    ∧ RequestChannel.sendRequest
        ({ sockConnected := true, requestId := 0, buffer := [] } :
          RequestChannel.ClientState)
        "commands.executeCommand" [] [['a', 'b'], ['\n', 'c']]
        (fun _ => [("id", (1 : Nat)), ("result", 42)]) =
      { outcome := RequestChannel.responseOutcome
          [("id", (1 : Nat)), ("result", 42)],
        state := { sockConnected := true, requestId := 1, buffer := ['c'] },
        written := [(1, "commands.executeCommand", [])] }
    ∧ RequestChannel.responseOutcome [("id", (1 : Nat)), ("result", 42)] =
        Except.ok (some 42) :=
  ⟨by decide,
   C2_send_request_response_handling.1
     { sockConnected := true, requestId := 0, buffer := [] }
     "commands.executeCommand" [] [['a', 'b'], ['\n', 'c']]
     (fun _ => [("id", (1 : Nat)), ("result", 42)]) ['a', 'b'] ['c']
     rfl (by decide),
   C2_send_request_response_handling.2.2.2.1 (1 : Nat) 42⟩

/-- **C7.** When the client is not connected (`self.sock is None`),
`_send_request` fails with a connection error before writing anything to
the transport (`written = []`), and the client state — the request-id
counter and the receive buffer — is unchanged. -/
theorem C7_send_request_requires_connection {α : Type}
    (st : RequestChannel.ClientState) (method : String)
    (params : List (String × α)) (chunks : List (List Char))
    (decode : List Char → List (String × α))
    (h : st.sockConnected = false) :
    RequestChannel.sendRequest st method params chunks decode =
      { outcome := Except.error RequestChannel.SendFailure.notConnected,
        state := st, written := [] } := by
  simp [RequestChannel.sendRequest, h]

/-- Witness for `C7_send_request_requires_connection` at a concrete
disconnected state: nothing is written, the state is returned untouched. -/
theorem C7_send_request_requires_connection_witness :
    ({ sockConnected := false, requestId := 5, buffer := ['x'] } :
        RequestChannel.ClientState).sockConnected = false
    ∧ RequestChannel.sendRequest
        ({ sockConnected := false, requestId := 5, buffer := ['x'] } :
          RequestChannel.ClientState)
        "window.showInformationMessage" ([] : List (String × Nat)) [['y']]
        (fun _ => []) =
      { outcome := Except.error RequestChannel.SendFailure.notConnected,
        state := { sockConnected := false, requestId := 5, buffer := ['x'] },
        written := [] } :=
  ⟨rfl,
   C7_send_request_requires_connection
     { sockConnected := false, requestId := 5, buffer := ['x'] }
     "window.showInformationMessage" [] [['y']] (fun _ => []) rfl⟩

namespace Sockpuppet.Webview

theorem deliverPanel_pid {α : Type} (e : WEvent α) (p : Panel α) :
    (deliverPanel e p).pid = p.pid := rfl

theorem dispatch_eq_map {α : Type} (reg : List (Panel α)) (e : WEvent α) :
    dispatch reg e = reg.map (applyEvent e) := by
  cases hid : e.idField with
  | none =>
    have h : ∀ p : Panel α, applyEvent e p = p := by
      intro p
      simp [applyEvent, deliverable, hid]
    have h2 : applyEvent e = (id : Panel α → Panel α) := funext h
    simp [dispatch, hid, h2]
  | some pid =>
    by_cases hp : pid = ""
    · subst hp
      have h : ∀ p : Panel α, applyEvent e p = p := by
        intro p
        simp [applyEvent, deliverable, hid]
      have h2 : applyEvent e = (id : Panel α → Panel α) := funext h
      simp [dispatch, hid, h2]
    · have h : ∀ p : Panel α,
          (if p.pid = pid then deliverPanel e p else p) = applyEvent e p := by
        intro p
        by_cases hpp : p.pid = pid
        · simp [applyEvent, deliverable, hid, hp, hpp]
        · have hpp' : ¬pid = p.pid := fun hh => hpp hh.symm
          simp [applyEvent, deliverable, hid, hpp, hpp']
      simp [dispatch, hid, hp, h]

theorem collect_applyEvent {α : Type} (e : WEvent α) (evs : List (WEvent α))
    (p : Panel α) :
    collect evs (applyEvent e p) = collect (e :: evs) p := by
  by_cases hd : deliverable p.pid e
  · simp [applyEvent, hd, collect, deliverPanel, List.filter_cons,
      List.map_map, Function.comp]
  · simp [applyEvent, hd, collect, List.filter_cons]

theorem dispatchAll_eq {α : Type} (reg : List (Panel α))
    (evs : List (WEvent α)) :
    dispatchAll reg evs = reg.map (collect evs) := by
  induction evs generalizing reg with
  | nil =>
    have h : ∀ p : Panel α, collect ([] : List (WEvent α)) p = p := by
      intro p
      simp [collect]
    have h2 : collect ([] : List (WEvent α)) = (id : Panel α → Panel α) :=
      funext h
    simp [dispatchAll, h2]
  | cons e evs ih =>
    calc dispatchAll reg (e :: evs)
        = dispatchAll (dispatch reg e) evs := rfl
      _ = (dispatch reg e).map (collect evs) := ih _
      _ = (reg.map (applyEvent e)).map (collect evs) := by
            rw [dispatch_eq_map]
      _ = reg.map (fun p => collect evs (applyEvent e p)) := by
            rw [List.map_map]
            rfl
      _ = reg.map (collect (e :: evs)) := by
            simp only [collect_applyEvent]

end Sockpuppet.Webview

open Sockpuppet.Webview in
/-- **C5.** Dispatching any sequence of `webview.onDidReceiveMessage` events
through the shared global handler delivers to each registered panel's
handlers exactly the `message` payloads of the events whose embedded `id`
equals that panel's own id, in arrival order (first conjunct, the closed
form of the dispatcher); in particular, with panels `A` and `B` each holding
one handler, dispatching `id:"A", message:"one"` then `id:"B",
message:"two"` leaves `A`'s handler having recorded `["one"]` and `B`'s
`["two"]` (second conjunct), so an event carrying one panel's id is never
delivered to the other panel. -/
theorem C5_webview_messages_route_by_id :
    (∀ {α : Type} (reg : List (Panel α)) (evs : List (WEvent α)),
        dispatchAll reg evs = reg.map (collect evs))
    ∧ dispatchAll
        [({ pid := "A"
            disposed := false
            title := "A"
            messageHandlers := [[]]
            disposeHandlers := []
            disposeSubscriptionActive := false } : Panel String),
         { pid := "B"
           disposed := false
           title := "B"
           messageHandlers := [[]]
           disposeHandlers := []
           disposeSubscriptionActive := false }]
        [{ idField := some "A", message := some "one" },
         { idField := some "B", message := some "two" }]
      = [{ pid := "A"
           disposed := false
           title := "A"
           messageHandlers := [[some "one"]]
           disposeHandlers := []
           disposeSubscriptionActive := false },
         { pid := "B"
           disposed := false
           title := "B"
           messageHandlers := [[some "two"]]
           disposeHandlers := []
           disposeSubscriptionActive := false }] :=
  ⟨fun reg evs => dispatchAll_eq reg evs, by decide⟩

open Sockpuppet.Webview in
/-- **C8.** Calling `on_did_dispose(handler)` on a panel whose disposed flag
is already set invokes the handler synchronously exactly once within that
same call, adds nothing to the dispose-handler list (the panel state is
returned unchanged), and returns the no-op unsubscribe closure
(`lambda: None`), whose invocation changes nothing. -/
theorem C8_on_did_dispose_when_already_disposed {α : Type}
    (p : Panel α) (h : Nat) (hd : p.disposed = true) :
    on_did_dispose p h = (p, [h], Unsub.noop)
    ∧ runUnsub p Unsub.noop = p := by
  refine ⟨?_, rfl⟩
  simp [on_did_dispose, hd]

open Sockpuppet.Webview in
/-- Witness for `C8_on_did_dispose_when_already_disposed` at a concrete
disposed panel and handler `3`. -/
theorem C8_on_did_dispose_when_already_disposed_witness :
    disposedSample.disposed = true
    ∧ (on_did_dispose disposedSample 3 = (disposedSample, [3], Unsub.noop)
       ∧ runUnsub disposedSample Unsub.noop = disposedSample) :=
  ⟨rfl, C8_on_did_dispose_when_already_disposed disposedSample 3 rfl⟩

open Sockpuppet.Webview in
/-- **C10.** On a panel whose disposed flag is set, `update_html`,
`update_title`, `update_icon`, `post_message` and `as_webview_uri` all raise
a `RuntimeError` (with the source's messages) while sending no request to
the host and leaving the panel state unchanged. -/
theorem C10_disposed_panel_operations_raise {α : Type}
    (p : Panel α) (hd : p.disposed = true) :
    (∀ html : String, update_html p html =
        { panel := p
          sent := []
          out := .error "Cannot update disposed webview panel" })
    ∧ (∀ t : String, update_title p t =
        { panel := p
          sent := []
          out := .error "Cannot update disposed webview panel" })
    ∧ (∀ icon : String, update_icon p icon =
        { panel := p
          sent := []
          out := .error "Cannot update disposed webview panel" })
    ∧ (∀ m : α, post_message p m =
        { panel := p
          sent := []
          out := .error "Cannot post message to disposed webview panel" })
    ∧ (∀ lu hu : String, as_webview_uri p lu hu =
        { panel := p
          sent := []
          out := .error "Cannot convert URI for disposed webview panel" }) := by
  refine ⟨?_, ?_, ?_, ?_, ?_⟩ <;> intros <;>
    simp [update_html, update_title, update_icon, post_message,
      as_webview_uri, hd]

open Sockpuppet.Webview in
/-- Witness for `C10_disposed_panel_operations_raise` at a concrete disposed
panel and concrete arguments. -/
theorem C10_disposed_panel_operations_raise_witness :
    disposedSample.disposed = true
    ∧ update_html disposedSample "<p>x</p>" =
        { panel := disposedSample
          sent := []
          out := .error "Cannot update disposed webview panel" }
    ∧ update_title disposedSample "new" =
        { panel := disposedSample
          sent := []
          out := .error "Cannot update disposed webview panel" }
    ∧ update_icon disposedSample "/icon.png" =
        { panel := disposedSample
          sent := []
          out := .error "Cannot update disposed webview panel" }
    ∧ post_message disposedSample 42 =
        { panel := disposedSample
          sent := []
          out := .error "Cannot post message to disposed webview panel" }
    ∧ as_webview_uri disposedSample "/a/b.png" "vscode-resource://a/b.png" =
        { panel := disposedSample
          sent := []
          out := .error "Cannot convert URI for disposed webview panel" } :=
  ⟨rfl,
   (C10_disposed_panel_operations_raise disposedSample rfl).1 "<p>x</p>",
   (C10_disposed_panel_operations_raise disposedSample rfl).2.1 "new",
   (C10_disposed_panel_operations_raise disposedSample rfl).2.2.1 "/icon.png",
   (C10_disposed_panel_operations_raise disposedSample rfl).2.2.2.1 42,
   (C10_disposed_panel_operations_raise disposedSample rfl).2.2.2.2
     "/a/b.png" "vscode-resource://a/b.png"⟩
